import Mathlib

/-
Verification development for the Student QR Attendance System (src/app.py).

The application is a Flask app with six JSON handlers operating on two
SQLite databases: student_data.db (tables students, subjects) and
attendance.db (table attendance), plus a process-wide mutable Python
dictionary current_subject. We embed the two databases, the autoincrement
counter of the attendance table, a logical clock standing for
CURRENT_TIMESTAMP, and the current_subject global into one record DBState,
and each HTTP handler as a pure function from a request and a DBState to
Except String (response and next state). A value Except.error e models a
Python exception that escapes the handler (Flask then produces an HTTP 500),
while Except.ok models a normal jsonify response (HTTP 200), whether or not
the payload carries success with value true.
-/

namespace StudentQR

/-- Byte-order comparison of character lists: the ordering SQLite applies to
TEXT columns under ORDER BY (memcmp over UTF-8 bytes, which on these values
coincides with code-point order). -/
def strLeAux : List Char → List Char → Bool
  | [], _ => true
  | _ :: _, [] => false
  | a :: as, b :: bs =>
    if a.toNat < b.toNat then true
    else if b.toNat < a.toNat then false
    else strLeAux as bs

/-- Lexicographic less-or-equal on strings, as SQLite ORDER BY sorts TEXT. -/
def strLe (a b : String) : Bool := strLeAux a.data b.data

theorem strLeAux_total : ∀ as bs, strLeAux as bs = true ∨ strLeAux bs as = true := by
  intro as
  induction as with
  | nil => intro bs; left; cases bs <;> rfl
  | cons a as ih =>
    intro bs
    cases bs with
    | nil => right; rfl
    | cons b bs =>
      simp only [strLeAux]
      rcases Nat.lt_trichotomy a.toNat b.toNat with h | h | h
      · left; simp [h]
      · have h1 : ¬ a.toNat < b.toNat := by omega
        have h2 : ¬ b.toNat < a.toNat := by omega
        simp [h1, h2]
        exact ih bs
      · right; simp [h]

theorem strLeAux_trans : ∀ as bs cs, strLeAux as bs = true → strLeAux bs cs = true →
    strLeAux as cs = true := by
  intro as
  induction as with
  | nil => intro bs cs _ _; rfl
  | cons a as ih =>
    intro bs cs h1 h2
    cases bs with
    | nil => simp [strLeAux] at h1
    | cons b bs =>
      cases cs with
      | nil => simp [strLeAux] at h2
      | cons c cs =>
        simp only [strLeAux] at h1 h2 ⊢
        rcases Nat.lt_trichotomy a.toNat b.toNat with hab | hab | hab
        · rcases Nat.lt_trichotomy b.toNat c.toNat with hbc | hbc | hbc
          · simp [show a.toNat < c.toNat by omega]
          · simp [show a.toNat < c.toNat by omega]
          · simp [show ¬ b.toNat < c.toNat by omega, hbc] at h2
        · rcases Nat.lt_trichotomy b.toNat c.toNat with hbc | hbc | hbc
          · simp [show a.toNat < c.toNat by omega]
          · simp [show ¬ a.toNat < b.toNat by omega, show ¬ b.toNat < a.toNat by omega] at h1
            simp [show ¬ b.toNat < c.toNat by omega, show ¬ c.toNat < b.toNat by omega] at h2
            simp [show ¬ a.toNat < c.toNat by omega, show ¬ c.toNat < a.toNat by omega]
            exact ih bs cs h1 h2
          · simp [show ¬ b.toNat < c.toNat by omega, hbc] at h2
        · simp [show ¬ a.toNat < b.toNat by omega, hab] at h1

/-- Row of the students table (src/app.py lines 25 to 28): roll_no is the
TEXT primary key, name a NOT NULL TEXT column. -/
structure Student where
  roll_no : String
  name : String
deriving DecidableEq

/-- Row of the subjects table (src/app.py lines 31 to 34): subject_id is the
TEXT primary key, subject_name a NOT NULL TEXT column. -/
structure Subject where
  subject_id : String
  subject_name : String
deriving DecidableEq

/-- Row of the attendance table (src/app.py lines 57 to 63): log_id is the
INTEGER PRIMARY KEY AUTOINCREMENT, datetime defaults to CURRENT_TIMESTAMP
(modelled by a logical clock), status is TEXT constrained by
CHECK(status IN (Present, Absent)). -/
structure AttendanceRow where
  log_id : Nat
  roll_no : String
  subject_id : String
  datetime : Nat
  status : String
deriving DecidableEq

/-- Combined state of the two SQLite databases and the process globals:
students and subjects live in student_data.db, attendance in attendance.db,
nextLogId is the autoincrement counter of the attendance table, clock is a
logical time source standing for CURRENT_TIMESTAMP, and current_subject is
the module-level Python dictionary of src/app.py line 219. -/
structure DBState where
  students : List Student
  subjects : List Subject
  attendance : List AttendanceRow
  nextLogId : Nat
  clock : Nat
  current_subject : Subject
deriving DecidableEq

/-- The five default subjects seeded by init_db (src/app.py lines 37 to 47). -/
def defaultSubjects : List Subject :=
  [⟨"BCA-501", "DBMS"⟩, ⟨"BCA-502", "JAVA"⟩, ⟨"BCA-503", "CN"⟩,
   ⟨"BCA-504", "DBMS-LAB"⟩, ⟨"BCA-505", "JAVA-LAB"⟩]

/-- State after init_db runs on fresh database files and the module loads:
empty students and attendance tables, the five seeded subjects, autoincrement
starting at 1, and current_subject hardcoded to BCA-501 / DBMS
(src/app.py line 219). -/
def initState : DBState :=
  ⟨[], defaultSubjects, [], 1, 0, ⟨"BCA-501", "DBMS"⟩⟩

/-- The QR image encoder (src/app.py lines 70 to 92) is an external library
collaborator, out of scope per the specification: given the roll number as
payload it returns a base64 PNG string. Modelled as an injective text
encoding of the payload; no claim depends on the image bytes. -/
def generate_qr_code (roll_no : String) : String :=
  "base64-png-qr:" ++ roll_no

/-- JSON body of a POST to /register. A field holding none models a request
body from which that key is missing, so that the subscript lookup in Python
raises KeyError. -/
structure RegisterRequest where
  roll_no : Option String
  name : Option String
deriving DecidableEq

/-- JSON body of a POST to /scan. -/
structure ScanRequest where
  roll_no : Option String
deriving DecidableEq

/-- Response payload of /register. -/
structure RegisterResp where
  success : Bool
  qr_code : Option String
  error : Option String
deriving DecidableEq

/-- Student object embedded in a successful /scan response
(src/app.py lines 296 to 304). -/
structure ScanStudent where
  roll_no : String
  name : String
  subject_id : String
  status : String
deriving DecidableEq

/-- Response payload of /scan. -/
structure ScanResp where
  success : Bool
  student : Option ScanStudent
  error : Option String
deriving DecidableEq

/-- Response payload of /get-subjects. -/
structure GetSubjectsResp where
  success : Bool
  subjects : List Subject
  current : Option Subject
  error : Option String
deriving DecidableEq

/-- Response payload of /set-subject. -/
structure SetSubjectResp where
  success : Bool
  current : Option Subject
  error : Option String
deriving DecidableEq

/-- Response payload of /data (src/app.py lines 196 to 211): the nested
dictionaries database1_student_data and database2_attendance flattened to
their three row lists, since the per-row reshaping is the identity on row
content. -/
structure DataResp where
  students : List Student
  subjects : List Subject
  attendance : List AttendanceRow
deriving DecidableEq

/-- Response payload of /clear-data. -/
structure ClearResp where
  success : Bool
  message : Option String
  error : Option String
deriving DecidableEq

/-- Handler of POST /register (src/app.py lines 113 to 143). The two
subscript lookups on the request body happen BEFORE the try block, so a
missing key raises KeyError out of the handler; inside the try block the
INSERT hits the primary key of students, and sqlite3.IntegrityError on a
duplicate roll_no is answered with a structured failure. On success the QR
image is generated and returned inline. -/
def register_student (req : RegisterRequest) (s : DBState) :
    Except String (RegisterResp × DBState) :=
  match req.roll_no with
  | none => .error "KeyError: roll_no"
  | some roll_no =>
    match req.name with
    | none => .error "KeyError: name"
    | some name =>
      if s.students.any (fun st => st.roll_no == roll_no) then
        .ok (⟨false, none, some "Roll number already exists"⟩, s)
      else
        .ok (⟨true, some (generate_qr_code roll_no), none⟩,
             { s with students := s.students ++ [⟨roll_no, name⟩] })

/-- Handler of POST /clear-data (src/app.py lines 147 to 168): DELETE FROM
students and DELETE FROM attendance; the subjects table is not touched. -/
def clear_data (s : DBState) : Except String (ClearResp × DBState) :=
  .ok (⟨true, some "All data cleared successfully", none⟩,
       { s with students := [], attendance := [] })

/-- SELECT * FROM subjects ORDER BY subject_name, as List.insertionSort with
the SQLite TEXT ordering. -/
def sortSubjectsByName (l : List Subject) : List Subject :=
  List.insertionSort (fun a b => strLe a.subject_name b.subject_name = true) l

/-- SELECT * FROM attendance ORDER BY datetime DESC. -/
def sortAttendanceByTimeDesc (l : List AttendanceRow) : List AttendanceRow :=
  List.insertionSort (fun a b => b.datetime ≤ a.datetime) l

/-- Handler of GET /data (src/app.py lines 170 to 216): reads all students,
all subjects ordered by subject_name, and all attendance rows ordered by
datetime descending; writes nothing. -/
def show_data (s : DBState) : Except String (DataResp × DBState) :=
  .ok (⟨s.students, sortSubjectsByName s.subjects, sortAttendanceByTimeDesc s.attendance⟩, s)

/-- Handler of GET /get-subjects (src/app.py lines 226 to 242): all subjects
ordered by subject_name plus the current_subject global. -/
def get_subjects (s : DBState) : Except String (GetSubjectsResp × DBState) :=
  .ok (⟨true, sortSubjectsByName s.subjects, some s.current_subject, none⟩, s)

/-- Handler of POST /set-subject (src/app.py lines 244 to 265). Everything,
including the subscript lookup on the request body, sits inside the try
block, so a missing subject_id key is caught and answered as a structured
failure. A successful SELECT of subject_name reassigns the current_subject
global; an empty result leaves it untouched. -/
def set_subject (req : Option String) (s : DBState) :
    Except String (SetSubjectResp × DBState) :=
  match req with
  | none => .ok (⟨false, none, some "KeyError: subject_id"⟩, s)
  | some subject_id =>
    match s.subjects.find? (fun sub => sub.subject_id == subject_id) with
    | some sub =>
      .ok (⟨true, some ⟨subject_id, sub.subject_name⟩, none⟩,
           { s with current_subject := ⟨subject_id, sub.subject_name⟩ })
    | none => .ok (⟨false, none, some "Subject not found"⟩, s)

/-- Handler of POST /scan (src/app.py lines 267 to 311). The subscript lookup
of roll_no happens BEFORE the try block, so a missing key raises KeyError out
of the handler. The INSERT OR REPLACE into attendance (lines 288 to 291)
never actually replaces: the only uniqueness constraint of the table is the
log_id INTEGER PRIMARY KEY AUTOINCREMENT, which is absent from the column
list and therefore always receives a fresh value, and there is no UNIQUE
constraint on the pair of roll_no and subject_id; hence every successful scan
appends one row with status Present, datetime defaulting to
CURRENT_TIMESTAMP (the logical clock here). -/
def scan_qr (req : ScanRequest) (s : DBState) : Except String (ScanResp × DBState) :=
  match req.roll_no with
  | none => .error "KeyError: roll_no"
  | some roll_no =>
    let subject_id := s.current_subject.subject_id
    match s.students.find? (fun st => st.roll_no == roll_no) with
    | some student =>
      .ok (⟨true, some ⟨student.roll_no, student.name, subject_id, "Present"⟩, none⟩,
           { s with
               attendance :=
                 s.attendance ++ [⟨s.nextLogId, roll_no, subject_id, s.clock, "Present"⟩],
               nextLogId := s.nextLogId + 1,
               clock := s.clock + 1 })
    | none => .ok (⟨false, none, some "Student not found"⟩, s)

/-- A request to any of the six JSON handlers. -/
inductive Request where
  | register (req : RegisterRequest)
  | scan (req : ScanRequest)
  | getSubjects
  | setSubject (req : Option String)
  | showData
  | clearData
deriving DecidableEq

/-- The response of whichever handler served the request. -/
inductive Resp where
  | register (r : RegisterResp)
  | scan (r : ScanResp)
  | getSubjects (r : GetSubjectsResp)
  | setSubject (r : SetSubjectResp)
  | showData (r : DataResp)
  | clearData (r : ClearResp)

/-- Dispatch a request to its handler. -/
def runRequest : Request → DBState → Except String (Resp × DBState)
  | .register req, s => (register_student req s).map (fun p => (.register p.1, p.2))
  | .scan req, s => (scan_qr req s).map (fun p => (.scan p.1, p.2))
  | .getSubjects, s => (get_subjects s).map (fun p => (.getSubjects p.1, p.2))
  | .setSubject req, s => (set_subject req s).map (fun p => (.setSubject p.1, p.2))
  | .showData, s => (show_data s).map (fun p => (.showData p.1, p.2))
  | .clearData, s => (clear_data s).map (fun p => (.clearData p.1, p.2))

/-- State evolution under one request. When an exception escapes a handler it
does so before any database write (the KeyError paths of /register and /scan
precede every statement execution), so the state is unchanged. -/
def applyRequest (r : Request) (s : DBState) : DBState :=
  match runRequest r s with
  | .ok (_, s2) => s2
  | .error _ => s

/-- States the running application can be in: the seeded state of init_db,
closed under serving any sequence of requests. -/
inductive Reachable : DBState → Prop
  | init : Reachable initState
  | step : ∀ {s : DBState} (r : Request), Reachable s → Reachable (applyRequest r s)

/-- Requests whose handler reads a key of the request body before entering
its try block: /register reads roll_no and name, /scan reads roll_no. A
missing key there raises KeyError outside any except clause. -/
def requestKeyErrorOutsideTry : Request → Bool
  | .register req => req.roll_no.isNone || req.name.isNone
  | .scan req => req.roll_no.isNone
  | _ => false

/-- C1: evaluation of the code at the failing input of the claim. The claim
states that scanning a registered roll number twice under the same active
subject leaves exactly one attendance row for that roll number and subject
pair (overwrite, not append). On the embedded code, registering BCA001 and
scanning it twice from the seeded initial state leaves TWO attendance rows
for the pair of BCA001 and BCA-501: INSERT OR REPLACE never conflicts, so it
appends. -/
theorem c1_second_scan_appends_second_row :
    ((applyRequest (.scan ⟨some "BCA001"⟩)
        (applyRequest (.scan ⟨some "BCA001"⟩)
          (applyRequest (.register ⟨some "BCA001", some "Asha"⟩) initState))).attendance.filter
      (fun row => row.roll_no == "BCA001" && row.subject_id == "BCA-501")).length = 2 := by
  decide

/-- C2, counterexample: a POST to /register whose JSON body lacks the
roll_no key makes the handler raise KeyError before its try block, so the
exception propagates out of the handler instead of being converted to a
structured success false payload, refuting the claim that every runtime
failure is caught at the handler boundary. -/
theorem c2_uncaught_keyerror_counterexample :
    runRequest (.register ⟨none, some "Asha"⟩) initState = .error "KeyError: roll_no" := rfl

/-- C2, amended: a request makes an exception escape its handler exactly
when it is a /register or /scan request whose body is missing a key that the
handler reads before entering its try block; every other request, on any
state, is answered with a normal jsonify response. -/
theorem c2_exception_iff_missing_key_outside_try (r : Request) (s : DBState) :
    (∃ e, runRequest r s = .error e) ↔ requestKeyErrorOutsideTry r = true := by
  cases r with
  | register req =>
    obtain ⟨ro, nm⟩ := req
    cases ro with
    | none => simp [runRequest, register_student, requestKeyErrorOutsideTry, Except.map]
    | some roll =>
      cases nm with
      | none => simp [runRequest, register_student, requestKeyErrorOutsideTry, Except.map]
      | some name =>
        simp only [runRequest, register_student, requestKeyErrorOutsideTry]
        split <;> simp [Except.map]
  | scan req =>
    obtain ⟨ro⟩ := req
    cases ro with
    | none => simp [runRequest, scan_qr, requestKeyErrorOutsideTry, Except.map]
    | some roll =>
      simp only [runRequest, scan_qr, requestKeyErrorOutsideTry]
      rcases hf : s.students.find? (fun st => st.roll_no == roll) with _ | st <;>
        simp [hf, Except.map]
  | getSubjects => simp [runRequest, get_subjects, requestKeyErrorOutsideTry, Except.map]
  | setSubject req =>
    cases req with
    | none => simp [runRequest, set_subject, requestKeyErrorOutsideTry, Except.map]
    | some sid =>
      simp only [runRequest, set_subject, requestKeyErrorOutsideTry]
      rcases hf : s.subjects.find? (fun sub => sub.subject_id == sid) with _ | sub <;>
        simp [hf, Except.map]
  | showData => simp [runRequest, show_data, requestKeyErrorOutsideTry, Except.map]
  | clearData => simp [runRequest, clear_data, requestKeyErrorOutsideTry, Except.map]

/-- C3: when the students table holds exactly one row for a roll number, a
second registration of that roll number is answered with the structured
duplicate-key failure, the state is unchanged, and the table still holds
exactly that one row with the original name. -/
theorem c3_duplicate_register_rejected (s : DBState) (roll name0 name1 : String)
    (h : s.students.filter (fun st => st.roll_no == roll) = [⟨roll, name0⟩]) :
    register_student ⟨some roll, some name1⟩ s =
        .ok (⟨false, none, some "Roll number already exists"⟩, s)
      ∧ s.students.filter (fun st => st.roll_no == roll) = [⟨roll, name0⟩] := by
  have hmem : (⟨roll, name0⟩ : Student) ∈ s.students.filter (fun st => st.roll_no == roll) := by
    rw [h]; exact List.mem_singleton_self _
  have hmem2 := List.mem_filter.mp hmem
  have hany : s.students.any (fun st => st.roll_no == roll) = true :=
    List.any_eq_true.mpr ⟨_, hmem2.1, hmem2.2⟩
  exact ⟨by simp [register_student, hany], h⟩

/-- C3 witness: after registering BCA001 as Asha from the seeded initial
state, registering BCA001 again as Neha is rejected as a duplicate and the
directory keeps the single original row. -/
theorem c3_witness :
    register_student ⟨some "BCA001", some "Neha"⟩
        (applyRequest (.register ⟨some "BCA001", some "Asha"⟩) initState) =
      .ok (⟨false, none, some "Roll number already exists"⟩,
           applyRequest (.register ⟨some "BCA001", some "Asha"⟩) initState)
    ∧ (applyRequest (.register ⟨some "BCA001", some "Asha"⟩) initState).students.filter
        (fun st => st.roll_no == "BCA001") = [⟨"BCA001", "Asha"⟩] :=
  c3_duplicate_register_rejected _ "BCA001" "Asha" "Neha" (by decide)

/-- C4: setting the active subject to a subject_id with no matching row in
the subjects table is answered with the structured not-found failure and the
whole state, in particular the current_subject singleton, is exactly as
before; setting it to a subject_id whose lookup succeeds replaces the
singleton with that subject and is answered with success true. -/
theorem c4_set_subject_lookup (s : DBState) (sid : String) :
    ((∀ sub ∈ s.subjects, sub.subject_id ≠ sid) →
        set_subject (some sid) s = .ok (⟨false, none, some "Subject not found"⟩, s))
  ∧ (∀ sub, s.subjects.find? (fun x => x.subject_id == sid) = some sub →
        set_subject (some sid) s =
          .ok (⟨true, some ⟨sid, sub.subject_name⟩, none⟩,
               { s with current_subject := ⟨sid, sub.subject_name⟩ })) := by
  constructor
  · intro h
    have hf : s.subjects.find? (fun x => x.subject_id == sid) = none := by
      rw [List.find?_eq_none]
      intro x hx
      simpa using h x hx
    simp [set_subject, hf]
  · intro sub hf
    simp [set_subject, hf]

/-- C4 witness: on the seeded initial state, BCA-999 is unknown and leaves
the singleton at its BCA-501 default, while BCA-502 is known and replaces
the singleton with JAVA. -/
theorem c4_witness :
    set_subject (some "BCA-999") initState =
        .ok (⟨false, none, some "Subject not found"⟩, initState)
    ∧ set_subject (some "BCA-502") initState =
        .ok (⟨true, some ⟨"BCA-502", "JAVA"⟩, none⟩,
             { initState with current_subject := ⟨"BCA-502", "JAVA"⟩ }) :=
  ⟨(c4_set_subject_lookup initState "BCA-999").1 (by decide),
   (c4_set_subject_lookup initState "BCA-502").2 ⟨"BCA-502", "JAVA"⟩ (by decide)⟩

/-- C5: clear-data empties the students and attendance tables and touches
nothing else (subjects, the current_subject singleton and the counters are
framed by the record update); when the subjects table holds the five seeded
defaults, a /data read after clear-data returns empty student and attendance
lists and the five defaults sorted by subject_name. -/
theorem c5_clear_data_frame (s : DBState) (h : s.subjects = defaultSubjects) :
    clear_data s = .ok (⟨true, some "All data cleared successfully", none⟩,
        { s with students := [], attendance := [] })
  ∧ show_data { s with students := [], attendance := [] } =
      .ok (⟨[], [⟨"BCA-503", "CN"⟩, ⟨"BCA-501", "DBMS"⟩, ⟨"BCA-504", "DBMS-LAB"⟩,
                 ⟨"BCA-502", "JAVA"⟩, ⟨"BCA-505", "JAVA-LAB"⟩], []⟩,
           { s with students := [], attendance := [] }) := by
  have hs : sortSubjectsByName defaultSubjects =
      [⟨"BCA-503", "CN"⟩, ⟨"BCA-501", "DBMS"⟩, ⟨"BCA-504", "DBMS-LAB"⟩,
       ⟨"BCA-502", "JAVA"⟩, ⟨"BCA-505", "JAVA-LAB"⟩] := by decide
  exact ⟨rfl, by simp [show_data, h, hs, sortAttendanceByTimeDesc, List.insertionSort]⟩

/-- C5 witness: instantiated at the seeded initial state. -/
theorem c5_witness :
    clear_data initState = .ok (⟨true, some "All data cleared successfully", none⟩,
        { initState with students := [], attendance := [] })
  ∧ show_data { initState with students := [], attendance := [] } =
      .ok (⟨[], [⟨"BCA-503", "CN"⟩, ⟨"BCA-501", "DBMS"⟩, ⟨"BCA-504", "DBMS-LAB"⟩,
                 ⟨"BCA-502", "JAVA"⟩, ⟨"BCA-505", "JAVA-LAB"⟩], []⟩,
           { initState with students := [], attendance := [] }) :=
  c5_clear_data_frame initState rfl

/-- C6: scanning a roll number with no matching row in the students table is
answered with the structured Student not found failure as a normal response,
and the state, in particular the attendance table, is exactly as before. -/
theorem c6_scan_unknown_roll (s : DBState) (roll : String)
    (h : ∀ st ∈ s.students, st.roll_no ≠ roll) :
    scan_qr ⟨some roll⟩ s = .ok (⟨false, none, some "Student not found"⟩, s) := by
  have hf : s.students.find? (fun st => st.roll_no == roll) = none := by
    rw [List.find?_eq_none]
    intro st hst
    simpa using h st hst
  simp [scan_qr, hf]

/-- C6 witness: scanning XYZ999 on the seeded initial state, whose students
table is empty. -/
theorem c6_witness :
    scan_qr ⟨some "XYZ999"⟩ initState =
      .ok (⟨false, none, some "Student not found"⟩, initState) :=
  c6_scan_unknown_roll initState "XYZ999" (by decide)

/-- C9: registration validates nothing: any roll number not already present,
the empty string included, with any name, the empty string included, is
inserted and answered with success true and the QR payload. -/
theorem c9_register_accepts_any_fresh_roll (s : DBState) (roll name : String)
    (h : ∀ st ∈ s.students, st.roll_no ≠ roll) :
    register_student ⟨some roll, some name⟩ s =
      .ok (⟨true, some (generate_qr_code roll), none⟩,
           { s with students := s.students ++ [⟨roll, name⟩] }) := by
  have hany : s.students.any (fun st => st.roll_no == roll) = false := by
    rw [List.any_eq_false]
    intro st hst
    simpa using h st hst
  simp [register_student, hany]

/-- C9 witness: registering the empty roll number with the empty name on the
seeded initial state succeeds. -/
theorem c9_witness :
    register_student ⟨some "", some ""⟩ initState =
      .ok (⟨true, some (generate_qr_code ""), none⟩,
           { initState with students := initState.students ++ [⟨"", ""⟩] }) :=
  c9_register_accepts_any_fresh_roll initState "" "" (by decide)

instance : IsTotal Subject (fun a b => strLe a.subject_name b.subject_name = true) :=
  ⟨fun a b => strLeAux_total a.subject_name.data b.subject_name.data⟩

instance : IsTrans Subject (fun a b => strLe a.subject_name b.subject_name = true) :=
  ⟨fun _ _ _ hab hbc => strLeAux_trans _ _ _ hab hbc⟩

instance : IsTotal AttendanceRow (fun a b => b.datetime ≤ a.datetime) :=
  ⟨fun a b => Nat.le_total b.datetime a.datetime⟩

instance : IsTrans AttendanceRow (fun a b => b.datetime ≤ a.datetime) :=
  ⟨fun _ _ _ hab hbc => le_trans hbc hab⟩

/-- C7: on any state, /data answers with the full students list as stored, a
permutation of the subjects table sorted ascending by subject_name, and a
permutation of the attendance table sorted by datetime descending, and the
state is returned unchanged. -/
theorem c7_show_data_snapshot (s : DBState) :
    ∃ resp : DataResp,
      show_data s = .ok (resp, s)
      ∧ resp.students = s.students
      ∧ resp.subjects.Perm s.subjects
      ∧ List.Sorted (fun a b : Subject => strLe a.subject_name b.subject_name = true)
          resp.subjects
      ∧ resp.attendance.Perm s.attendance
      ∧ List.Sorted (fun a b : AttendanceRow => b.datetime ≤ a.datetime) resp.attendance := by
  refine ⟨_, rfl, rfl, ?_, ?_, ?_, ?_⟩
  · exact List.perm_insertionSort _ _
  · exact List.sorted_insertionSort _ _
  · exact List.perm_insertionSort _ _
  · exact List.sorted_insertionSort _ _

theorem applyRequest_subjects (r : Request) (s : DBState) :
    (applyRequest r s).subjects = s.subjects := by
  cases r with
  | register req =>
    obtain ⟨ro, nm⟩ := req
    cases ro with
    | none => rfl
    | some roll =>
      cases nm with
      | none => rfl
      | some nm2 =>
        by_cases hc : s.students.any (fun st => st.roll_no == roll) = true <;>
          simp [applyRequest, runRequest, register_student, hc, Except.map]
  | scan req =>
    obtain ⟨ro⟩ := req
    cases ro with
    | none => rfl
    | some roll =>
      rcases hf : s.students.find? (fun st => st.roll_no == roll) with _ | st <;>
        simp [applyRequest, runRequest, scan_qr, hf, Except.map]
  | getSubjects => rfl
  | setSubject req =>
    cases req with
    | none => rfl
    | some sid =>
      rcases hf : s.subjects.find? (fun sub => sub.subject_id == sid) with _ | sub <;>
        simp [applyRequest, runRequest, set_subject, hf, Except.map]
  | showData => rfl
  | clearData => rfl

theorem applyRequest_attendance (r : Request) (s : DBState) :
    (applyRequest r s).attendance = s.attendance
    ∨ (applyRequest r s).attendance = []
    ∨ ∃ rn, (applyRequest r s).attendance =
        s.attendance ++ [⟨s.nextLogId, rn, s.current_subject.subject_id, s.clock, "Present"⟩] := by
  cases r with
  | register req =>
    obtain ⟨ro, nm⟩ := req
    left
    cases ro with
    | none => rfl
    | some roll =>
      cases nm with
      | none => rfl
      | some nm2 =>
        by_cases hc : s.students.any (fun st => st.roll_no == roll) = true <;>
          simp [applyRequest, runRequest, register_student, hc, Except.map]
  | scan req =>
    obtain ⟨ro⟩ := req
    cases ro with
    | none => left; rfl
    | some roll =>
      rcases hf : s.students.find? (fun st => st.roll_no == roll) with _ | st
      · left
        simp [applyRequest, runRequest, scan_qr, hf, Except.map]
      · right; right
        exact ⟨roll, by simp [applyRequest, runRequest, scan_qr, hf, Except.map]⟩
  | getSubjects => left; rfl
  | setSubject req =>
    cases req with
    | none => left; rfl
    | some sid =>
      left
      rcases hf : s.subjects.find? (fun sub => sub.subject_id == sid) with _ | sub <;>
        simp [applyRequest, runRequest, set_subject, hf, Except.map]
  | showData => left; rfl
  | clearData => right; left; rfl

theorem applyRequest_current (r : Request) (s : DBState) :
    (applyRequest r s).current_subject = s.current_subject
    ∨ ∃ sub ∈ s.subjects, (applyRequest r s).current_subject.subject_id = sub.subject_id := by
  cases r with
  | register req =>
    obtain ⟨ro, nm⟩ := req
    left
    cases ro with
    | none => rfl
    | some roll =>
      cases nm with
      | none => rfl
      | some nm2 =>
        by_cases hc : s.students.any (fun st => st.roll_no == roll) = true <;>
          simp [applyRequest, runRequest, register_student, hc, Except.map]
  | scan req =>
    obtain ⟨ro⟩ := req
    cases ro with
    | none => left; rfl
    | some roll =>
      left
      rcases hf : s.students.find? (fun st => st.roll_no == roll) with _ | st <;>
        simp [applyRequest, runRequest, scan_qr, hf, Except.map]
  | getSubjects => left; rfl
  | setSubject req =>
    cases req with
    | none => left; rfl
    | some sid =>
      rcases hf : s.subjects.find? (fun sub => sub.subject_id == sid) with _ | sub
      · left
        simp [applyRequest, runRequest, set_subject, hf, Except.map]
      · right
        have hp := List.find?_some hf
        have hid : sub.subject_id = sid := by simpa using hp
        refine ⟨sub, List.mem_of_find?_eq_some hf, ?_⟩
        simp [applyRequest, runRequest, set_subject, hf, Except.map, hid]
  | showData => left; rfl
  | clearData => left; rfl

/-- C8: in every reachable state, every row of the attendance table has
status Present: the scan handler is the only writer and always writes the
literal Present, so the Absent value allowed by the CHECK constraint of the
schema never appears. -/
theorem c8_attendance_status_always_present (s : DBState) (h : Reachable s) :
    s.attendance.all (fun row => row.status == "Present") = true := by
  induction h with
  | init => rfl
  | step r hs ih =>
    rcases applyRequest_attendance r _ with heq | heq | ⟨rn, heq⟩
    · rw [heq]; exact ih
    · rw [heq]; rfl
    · rw [heq]
      simp [List.all_append, ih]

/-- C8 witness: after registering BCA001 and scanning it once from the
seeded initial state, the single attendance row has status Present. -/
theorem c8_witness :
    ((applyRequest (.scan ⟨some "BCA001"⟩)
        (applyRequest (.register ⟨some "BCA001", some "Asha"⟩) initState)).attendance.all
      (fun row => row.status == "Present")) = true :=
  c8_attendance_status_always_present _
    (Reachable.step _ (Reachable.step _ Reachable.init))

/-- C10: in every reachable state the subjects table still holds exactly the
five seeded default rows (no handler writes or deletes subject rows, clear
included), and the current_subject singleton names one of them: its initial
BCA-501 default is seeded, and set-subject reassigns it only after a
successful lookup. -/
theorem c10_active_subject_names_seeded_row (s : DBState) (h : Reachable s) :
    s.subjects = defaultSubjects
    ∧ s.subjects.any (fun sub => sub.subject_id == s.current_subject.subject_id) = true := by
  induction h with
  | init => exact ⟨rfl, by decide⟩
  | @step s0 r hs ih =>
    obtain ⟨ihsub, ihany⟩ := ih
    constructor
    · rw [applyRequest_subjects r s0]
      exact ihsub
    · rcases applyRequest_current r s0 with heq | ⟨sub, hmem, hid⟩
      · rw [applyRequest_subjects r s0, heq]
        exact ihany
      · rw [applyRequest_subjects r s0]
        refine List.any_eq_true.mpr ⟨sub, hmem, ?_⟩
        simp [hid]

/-- C10 witness: after one set-subject request switching to BCA-503, the
subjects table is still the seeded list and the singleton names one of its
rows. -/
theorem c10_witness :
    (applyRequest (.setSubject (some "BCA-503")) initState).subjects = defaultSubjects
    ∧ (applyRequest (.setSubject (some "BCA-503")) initState).subjects.any
        (fun sub => sub.subject_id ==
          (applyRequest (.setSubject (some "BCA-503")) initState).current_subject.subject_id)
        = true :=
  c10_active_subject_names_seeded_row _ (Reachable.step _ Reachable.init)

end StudentQR
